import Mathlib

/-!
# Verification of the sl3aio execution and table layer

Shallow embedding of `src/sl3aio/executor.py` and `src/sl3aio/table.py`.
Python values stored in table cells are modelled by `Val`, SQL `NULL`
(Python `None`) by `Option.none`.  Stateful Python objects are modelled by
explicit state passing; `raise` is modelled by `Except.error`.
-/

namespace Sl3aio

/-! ## ConsistentExecutor worker queue (`executor.py`, `_worker` / `__call__`)

`ConsistentExecutor.__call__` appends `(partial(func, *args), future)` to an
`asyncio.Queue` (FIFO).  The worker coroutine repeatedly dequeues one entry;
if the entry's future is already `done()` it marks the task done and
continues without invoking the callable, otherwise it runs the callable on
the single-thread pool, awaits its completion, and resolves the future,
before dequeuing the next entry.  Because the worker awaits each execution
to completion before touching the queue again, its behaviour is the
sequential trace computed below: `worker q` is the list of callables
executed, in execution order, which is also the order in which their
futures are resolved. -/

/-- One queue entry of `ConsistentExecutor`: the callable submitted by
`__call__` (identified by a value of type `α`) together with whether its
future is already completed at the moment the worker dequeues it. -/
structure QueueEntry (α : Type) where
  call : α
  done : Bool
deriving DecidableEq, Repr

/-- Trace of `ConsistentExecutor._worker` over a queue snapshot: dequeue in
FIFO order, skip an entry whose future is `done()`, otherwise execute the
callable (and resolve its future) before moving to the next entry. -/
def worker {α : Type} : List (QueueEntry α) → List α
  | [] => []
  | e :: rest => if e.done then worker rest else e.call :: worker rest

/-! ## ConsistentExecutor / ConnectionManager lifecycle
(`executor.py`, `ConsistentExecutor.start/stop`, `ConnectionManager.start/stop`)

`ConsistentExecutor.start` increments `_refcount` and creates the worker
task iff none exists (returning `True` exactly then).
`ConsistentExecutor.stop` does nothing when `_refcount` is `0`; otherwise
it decrements, and on reaching `0` awaits `_queue.join()` (drains the
queue) and cancels the worker (returning `True` exactly then).
`ConnectionManager.start` opens the native sqlite connection exactly when
the superclass `start` returned `True`; `ConnectionManager.stop` commits
and closes it exactly when the superclass `stop` returned `True`.
The state records the counters and the cumulative number of connection
opens and closes; `pending` is the number of queued-but-unfinished tasks,
zeroed by `join()` before the worker is cancelled and the connection
closed. -/

/-- State of one `ConnectionManager` (which is a `ConsistentExecutor`). -/
structure CMState where
  refcount : Nat
  workerRunning : Bool
  connectionOpen : Bool
  pending : Nat
  opens : Nat
  closes : Nat
deriving DecidableEq, Repr

/-- A freshly constructed `ConnectionManager`: `_refcount = 0`, no worker
task, `_connection = None`, empty queue, no opens or closes yet. -/
def initCM : CMState := ⟨0, false, false, 0, 0, 0⟩

/-- `ConsistentExecutor.start`: increment `_refcount`; create the worker
task iff there is none, and report whether one was created. -/
def ceStart (s : CMState) : CMState × Bool :=
  let s' : CMState := { s with refcount := s.refcount + 1 }
  if s'.workerRunning then (s', false)
  else ({ s' with workerRunning := true }, true)

/-- `ConsistentExecutor.stop`: no-op when `_refcount = 0`; otherwise
decrement, and on the transition to `0` await `_queue.join()` (drain) and
cancel the worker, reporting whether the worker was stopped. -/
def ceStop (s : CMState) : CMState × Bool :=
  if s.refcount > 0 then
    let s' : CMState := { s with refcount := s.refcount - 1 }
    if s'.refcount = 0 then
      ({ s' with pending := 0, workerRunning := false }, true)
    else (s', false)
  else (s, false)

/-- `ConnectionManager.start`: run the superclass `start` and open the
native connection exactly when it returned `True`. -/
def cmStart (s : CMState) : CMState :=
  match ceStart s with
  | (s', true) => { s' with connectionOpen := true, opens := s'.opens + 1 }
  | (s', false) => s'

/-- `ConnectionManager.stop`: run the superclass `stop` and commit/close
the native connection exactly when it returned `True`. -/
def cmStop (s : CMState) : CMState :=
  match ceStop s with
  | (s', true) => { s' with connectionOpen := false, closes := s'.closes + 1 }
  | (s', false) => s'

/-- Apply a state transition `n` times. -/
def applyN {α : Type} (f : α → α) : Nat → α → α
  | 0, s => s
  | n + 1, s => applyN f n (f s)

/-! ## Table cells and columns (`table.py`, `TableColumn` / `TableRecord`) -/

/-- A Python value stored in a table cell (the claims only need integers
and strings). -/
inductive Val : Type where
  | int : Int → Val
  | str : String → Val
deriving DecidableEq, Repr

/-- A table cell: `none` is Python `None` / SQL `NULL`. -/
abbrev Cell := Option Val

/-- `TableColumn` (`table.py`).  The value generator of
`TableColumnValueGenerator` is a zero-argument callable, modelled as a
function out of `Unit`. -/
structure TableColumn : Type where
  name : String
  typename : String
  default : Cell := none
  generator : Option (Unit → Cell) := none
  primary : Bool := false
  unique : Bool := false
  nullable : Bool := true

/-- `TableColumn.get_default`: `next(self.generator) if self.generator
else self.default`.  Note there is no branch consulting `nullable`: a
column with neither generator nor default resolves to `None`. -/
def TableColumn.get_default (c : TableColumn) : Cell :=
  match c.generator with
  | some g => g ()
  | none => c.default

/-- The `fields` class attribute built by `TableRecord.make_subclass`:
the column names in order. -/
def recordFields (cols : List TableColumn) : List String :=
  cols.map (·.name)

/-- The `nonrepeating` class attribute built by
`TableRecord.make_subclass`: names of columns that are `unique` or
`primary`, in column order. -/
def nonrepeatingOf (cols : List TableColumn) : List String :=
  (cols.filter (fun c => c.unique || c.primary)).map (·.name)

/-- Lookup in the merged parameter dict `dict(zip(cls.fields, args)) |
kwargs` of `TableRecord.__new__`; the association list is that dict
(callers keep keys distinct, as a Python dict does). -/
def lookupParam (params : List (String × Cell)) (k : String) : Option Cell :=
  (params.find? (fun p => p.1 = k)).map (·.2)

/-- `TableRecord.__new__`: for every column of the table in order, take
the supplied parameter if its name is present, otherwise
`column.get_default()`.  No validation is performed and nothing is
raised; the construction is total. -/
def makeRecord (cols : List TableColumn) (params : List (String × Cell)) : List Cell :=
  cols.map (fun c =>
    match lookupParam params c.name with
    | some v => v
    | none => c.get_default)

/-! ## Record identity (`table.py`, `TableRecord.__eq__` / `__hash__`) -/

/-- The class-level data of a generated `TableRecord` subclass that
equality depends on: the ordered field names and the nonrepeating
(unique/primary) field names. -/
structure RecordCtx : Type where
  fields : List String
  nonrepeating : List String
deriving DecidableEq, Repr

/-- The `RecordCtx` built from a column list by
`TableRecord.make_subclass`. -/
def ctxOf (cols : List TableColumn) : RecordCtx :=
  ⟨recordFields cols, nonrepeatingOf cols⟩

/-- `TableRecord.__getattr__` / `__getitem__`: field access by name is
tuple access at `fields.index(name)` (total here; all claims access names
that are present, where `List.indexOf` agrees with `list.index`). -/
def getField (ctx : RecordCtx) (r : List Cell) (k : String) : Cell :=
  r.getD (ctx.fields.indexOf k) none

/-- `TableRecord.__eq__`: `any(getattr(self, k) == getattr(other, k) for
k in self.nonrepeating)` — a disjunction over the nonrepeating fields. -/
def recEq (ctx : RecordCtx) (r1 r2 : List Cell) : Bool :=
  ctx.nonrepeating.any (fun k => decide (getField ctx r1 k = getField ctx r2 k))

/-! ## MemoryTable (`table.py`)

`MemoryTable._records` is a Python `set` of records whose equality and
hash are `recEq`; it is modelled as a list of pairwise-distinct records.
`set.add` inserts only when no equal element is present, `set.discard`
removes the (unique) equal element, membership is equality-based. -/

/-- Python `record in set` for `MemoryTable._records`. -/
def set_contains (ctx : RecordCtx) (l : List (List Cell)) (r : List Cell) : Bool :=
  l.any (fun x => recEq ctx x r)

/-- Python `set.discard(records, r)`: remove the element equal to `r`
(at most one exists in a set). -/
def set_discard (ctx : RecordCtx) (l : List (List Cell)) (r : List Cell) : List (List Cell) :=
  l.eraseP (fun x => recEq ctx x r)

/-- Python `set.add(records, r)`: insert `r` unless an equal element is
already present (in which case the set keeps the old element). -/
def set_add (ctx : RecordCtx) (l : List (List Cell)) (r : List Cell) : List (List Cell) :=
  if set_contains ctx l r then l else l ++ [r]

/-- `MemoryTable.insert`: build the record, discard an equal stored record
when one exists and `ignore_existing` is false, then `set.add` the new
record.  Returns the new table contents and the constructed record. -/
def memInsert (cols : List TableColumn) (l : List (List Cell)) (ignore_existing : Bool)
    (params : List (String × Cell)) : List (List Cell) × List Cell :=
  let ctx := ctxOf cols
  let record := makeRecord cols params
  let l1 :=
    if set_contains ctx l record && !ignore_existing then set_discard ctx l record else l
  (set_add ctx l1 record, record)

/-- `MemoryTable.select` with a predicate: iterate a copy of the record
set and yield the records for which the awaited predicate is true. -/
def memSelect (l : List (List Cell)) (predicate : List Cell → Bool) : List (List Cell) :=
  l.filter predicate

/-- `MemoryTable.deleted` with no predicate, iterated to exhaustion by
`Table.delete`.  The loop body runs
`await self._executor(set.discard, self._records)` — `set.discard` is
applied to the set alone, without the record to discard, so the first
iteration raises `TypeError` (before anything is removed and before the
first `yield`).  Only the empty table completes without error. -/
def memDeleteNoPred (l : List (List Cell)) : Except String (List (List Cell)) :=
  match l with
  | [] => .ok []
  | _ :: _ => .error "TypeError: set.discard missing the element argument"

/-- Truthiness of the coroutine object `predicate(record)`: the
predicate-branch of `MemoryTable.deleted` tests `if predicate(record):`
without awaiting, and a coroutine object is always truthy. -/
def coroutineTruthy : Bool := true

/-- `set.discard(records, record)` when `record` is the very element being
iterated (as in the `deleted`/`updated` loops, which iterate a copy of the
set and discard the iterated record): CPython's set lookup compares object
identity before calling `__eq__`, so the iterated element itself is always
removed.  Modelled by erasing the first structurally identical element. -/
def set_discard_self (l : List (List Cell)) (r : List Cell) : List (List Cell) :=
  l.eraseP (fun x => x == r)

/-- `MemoryTable.deleted` with a predicate, iterated to exhaustion:
for every record of a copy of the set, test the un-awaited coroutine
`predicate(record)` for truth (always true), and in that case discard the
record and yield it.  Returns the remaining records and the yielded
(deleted) records, in order. -/
def memDeletedPred (l : List (List Cell))
    (_predicate : List Cell → Bool) : List (List Cell) × List (List Cell) :=
  l.foldl
    (fun st r =>
      if coroutineTruthy then (set_discard_self st.1 r, st.2 ++ [r]) else st)
    (l, [])

/-! ## SolidTable (`table.py`)

`SolidTable` stores nothing itself: it emits SQL against the sqlite
connection.  The sqlite table reached by those statements is modelled as a
list of rows; the semantics of the two fixed statement shapes the claims
need (`INSERT OR REPLACE|IGNORE INTO t VALUES (...)` on a table with an
integer primary key, and `DELETE FROM t RETURNING *`) are the documented
sqlite semantics of those statements. -/

/-- Conflict mode of the `INSERT OR %s` statement built by
`SolidTable.insert`: `REPLACE` when `ignore_existing` is false, `IGNORE`
when it is true. -/
inductive InsertMode : Type where
  | replace
  | ignore
deriving DecidableEq, Repr

/-- Whether two rows conflict on the primary-key column at index `pk`
(sqlite: a `NULL` key never conflicts). -/
def rowConflicts (pk : Nat) (r1 r2 : List Cell) : Bool :=
  match r1.getD pk none, r2.getD pk none with
  | some a, some b => decide (a = b)
  | _, _ => false

/-- Sqlite execution of `INSERT OR REPLACE|IGNORE INTO t VALUES (...)` on
a table whose only uniqueness constraint is the primary key at column
index `pk`: `REPLACE` deletes every conflicting row and inserts the new
one; `IGNORE` drops the insert when a conflict exists. -/
def sqliteInsert (mode : InsertMode) (pk : Nat) (rows : List (List Cell))
    (r : List Cell) : List (List Cell) :=
  match mode with
  | .ignore => if rows.any (fun x => rowConflicts pk x r) then rows else rows ++ [r]
  | .replace => (rows.filter (fun x => !rowConflicts pk x r)) ++ [r]

/-- `SolidTable.insert`: build the record from the values and column
defaults, then execute `INSERT OR REPLACE|IGNORE INTO name VALUES
(?, ...)` with the record as parameters.  Returns the resulting sqlite
table and the constructed record. -/
def solidInsert (cols : List TableColumn) (pk : Nat) (rows : List (List Cell))
    (ignore_existing : Bool) (params : List (String × Cell)) :
    List (List Cell) × List Cell :=
  let record := makeRecord cols params
  (sqliteInsert (if ignore_existing then .ignore else .replace) pk rows record, record)

/-- `SolidTable.select` with a predicate: `SELECT * FROM name` streams
every row, each row is rebuilt into a record via
`self._record_type.make(*record_data)` (which for a full row of the right
arity returns the row itself), and the rows whose awaited predicate is
true are yielded. -/
def solidSelect (cols : List TableColumn) (rows : List (List Cell))
    (predicate : List Cell → Bool) : List (List Cell) :=
  (rows.map (fun row => makeRecord cols ((recordFields cols).zip row))).filter predicate

/-- `SolidTable.deleted` with no predicate, iterated to exhaustion:
`DELETE FROM name RETURNING *` empties the sqlite table and streams every
deleted row.  Returns the remaining rows (none) and the yielded rows. -/
def solidDeletedNoPred (rows : List (List Cell)) :
    List (List Cell) × List (List Cell) :=
  ([], rows)

/-- `' AND '.join` over the per-column equality templates. -/
def andJoin (fields : List String) : String :=
  String.intercalate " AND " (fields.map (fun k => k ++ " = ?"))

/-- `SolidTable._default_selector`, built in `__post_init__`:
`'WHERE ' + ' AND '.join(f'{k} = ?' for k in fields)`. -/
def default_selector (cols : List TableColumn) : String :=
  "WHERE " ++ andJoin (recordFields cols)

/-- `SolidTable._execute_where`, returning the SQL text and the parameter
list handed to `ConnectionManager.execute`:
(a) when the record type has nonrepeating columns, match on the first
nonrepeating column only;
(b) otherwise, when the record contains `None`, the source computes
`f'{query} WHERE ' + self._executor(' AND '.join, ...)` — but
`ConsistentExecutor.__call__` returns a `Future`, and adding a `Future`
to a `str` raises `TypeError` before any SQL is issued;
(c) otherwise append the precomputed default selector (conjunction over
all columns) with the whole record as parameters. -/
def execute_where (cols : List TableColumn) (query : String) (record : List Cell)
    (parameters : List Cell) : Except String (String × List Cell) :=
  let ctx := ctxOf cols
  match nonrepeatingOf cols with
  | key :: _ =>
      .ok (query ++ " WHERE " ++ key ++ " = ?", parameters ++ [getField ctx record key])
  | [] =>
      if record.contains none then
        .error "TypeError: can only concatenate str to str, not Future"
      else
        .ok (query ++ " " ++ default_selector cols, parameters ++ record)

/-! ## CursorManager.fetch (`executor.py`)

The loop keeps a counter `i` starting at `0`; an iteration with
`i <= start` touches nothing and only increments `i`, so when the
consuming phase is first entered the counter is `start + 1` and the
cursor has not advanced.  From then on each iteration first breaks when
`stop` is reached, otherwise consumes one row via `anext` — keeping it
when `i % step == 0`, discarding it otherwise — and increments `i`.  The
`finally: return result` turns the cursor's `StopAsyncIteration` into a
normal return of the rows gathered so far. -/

/-- Does the counter satisfy `stop is not None and i >= stop`? -/
def stopHit : Option Nat → Nat → Bool
  | some s, i => s ≤ i
  | none, _ => false

/-- The consuming phase of `CursorManager.fetch` (counter `i > start`). -/
def fetchAux (stop : Option Nat) (step : Nat) : List Val → Nat → List Val
  | [], _ => []
  | r :: rest, i =>
    if stopHit stop i then []
    else if i % step == 0 then r :: fetchAux stop step rest (i + 1)
    else fetchAux stop step rest (i + 1)

/-- `CursorManager.fetch(start, stop, step)` over a cursor that yields
`rows`: `start + 1` silent counter increments, then the consuming loop. -/
def fetch (rows : List Val) (start : Nat) (stop : Option Nat) (step : Nat) : List Val :=
  fetchAux stop step rows (start + 1)

/-- Modelled from the spec: the Python slice `rows[start:stop:step]` (for
non-negative `start`/`stop` and positive `step`) that the spec says
`fetch` returns — the elements of the window from `start` to `stop` whose
offset inside the window is a multiple of `step`. -/
def pySlice {α : Type} (rows : List α) (start : Nat) (stop : Option Nat) (step : Nat) :
    List α :=
  let window := (rows.drop start).take (stop.getD rows.length - start)
  (window.enum.filter (fun p => p.1 % step == 0)).map (·.2)

/-! ## ConnectionManager singleton registry (`executor.py`, `__new__`) -/

/-- `Connector` (`executor.py`): the saved `sqlite3.connect` parameters.
`timeout` (a Python float) is carried opaquely and scaled to an integer;
the `factory` parameter (default `None`) is omitted — no claim touches
either beyond noting they are preserved or discarded wholesale. -/
structure Connector : Type where
  database : String
  timeout : Int := 5
  detect_types : Int := 0
  isolation_level : Option String := some "DEFERRED"
  check_same_thread : Bool := false
  cached_statements : Int := 128
  uri : Bool := false
  autocommit : Bool := false
deriving DecidableEq, Repr

/-- The per-instance state a `ConnectionManager` object owns: its stored
connector, its connection, and the inherited executor state (queue and
reference count). -/
structure CMInstance : Type where
  connector : Connector
  connectionOpen : Bool
  refcount : Nat
  pendingQueue : Nat
deriving DecidableEq, Repr

/-- The class-level `_instances` registry, keyed by `str(database)`. -/
abbrev Registry := List (String × CMInstance)

/-- Registry lookup (`database in cls._instances`). -/
def regFind (reg : Registry) (db : String) : Option CMInstance :=
  (reg.find? (fun p => p.1 = db)).map (·.2)

/-- `ConnectionManager.__new__` followed by the `__init__` that `pass`es:
when the connector's database already has a registered instance, return
it and touch nothing; otherwise initialise the executor state, store the
connector (with `check_same_thread` forced to `False`) and a `None`
connection, register the instance and return it. -/
def cmNew (reg : Registry) (c : Connector) : Registry × CMInstance :=
  match regFind reg c.database with
  | some inst => (reg, inst)
  | none =>
      let inst : CMInstance :=
        ⟨{ c with check_same_thread := false }, false, 0, 0⟩
      (reg ++ [(c.database, inst)], inst)

/-! ## The record-construction rule the spec states (for claim C7)

Modelled from the spec: `table.py` itself performs no validation in
`TableRecord.__new__` / `TableColumn.get_default`; the erroring
construction exists only in the spec's words ("errors at
record-construction time if null not permitted and no
value/default/generator supplied", §3; "construction errors — missing
required column value, non-nullable violation — raised synchronously",
§7). -/

/-- Modelled from the spec: record construction that raises when a
non-nullable column gets no supplied value, no generator and no static
default; otherwise resolves exactly like the code. -/
def makeRecordSpec (cols : List TableColumn) (params : List (String × Cell)) :
    Except String (List Cell) :=
  if cols.any (fun c =>
      !c.nullable && (lookupParam params c.name).isNone &&
        c.generator.isNone && c.default.isNone) then
    .error "missing required value for non-nullable column"
  else
    .ok (makeRecord cols params)

/-! ## Concrete instances used by the claims -/

/-- `id INTEGER PRIMARY KEY`. -/
def idCol : TableColumn := { name := "id", typename := "INTEGER", primary := true }

/-- `name TEXT NOT NULL` — no default and no generator. -/
def nameCol : TableColumn := { name := "name", typename := "TEXT", nullable := false }

/-- The column tuple of the `users` scenario table. -/
def userCols : List TableColumn := [idCol, nameCol]

/-- The record-class data of the `users` table. -/
def ctxU : RecordCtx := ctxOf userCols

/-- A placeholder column for total indexing. -/
def dummyCol : TableColumn := { name := "", typename := "" }

/-- `a INTEGER` with no constraints. -/
def colA : TableColumn := { name := "a", typename := "INTEGER" }

/-- `b INTEGER` with no constraints. -/
def colB : TableColumn := { name := "b", typename := "INTEGER" }

/-- A table with no nonrepeating columns. -/
def plainCols : List TableColumn := [colA, colB]

/-- A column whose value generator always produces `7`. -/
def genCol : TableColumn :=
  { name := "g", typename := "INTEGER", generator := some (fun _ => some (Val.int 7)) }

/-- Insert parameters `(id=1, name="Alice")`. -/
def pAlice : List (String × Cell) := [("id", some (Val.int 1)), ("name", some (Val.str "Alice"))]

/-- Insert parameters `(id=1, name="Bob")`. -/
def pBob : List (String × Cell) := [("id", some (Val.int 1)), ("name", some (Val.str "Bob"))]

/-- Insert parameters `(id=1, name="Carol")`. -/
def pCarol : List (String × Cell) := [("id", some (Val.int 1)), ("name", some (Val.str "Carol"))]

/-- Memory table after inserting Alice. -/
def memT1 : List (List Cell) := (memInsert userCols [] false pAlice).1

/-- Memory table after then inserting Bob with `ignore_existing=False`. -/
def memT2 : List (List Cell) := (memInsert userCols memT1 false pBob).1

/-- Memory table after then inserting Carol with `ignore_existing=True`. -/
def memT3 : List (List Cell) := (memInsert userCols memT2 true pCarol).1

/-- Sqlite table after inserting Alice. -/
def solidT1 : List (List Cell) := (solidInsert userCols 0 [] false pAlice).1

/-- Sqlite table after then inserting Bob with `ignore_existing=False`. -/
def solidT2 : List (List Cell) := (solidInsert userCols 0 solidT1 false pBob).1

/-- Sqlite table after then inserting Carol with `ignore_existing=True`. -/
def solidT3 : List (List Cell) := (solidInsert userCols 0 solidT2 true pCarol).1

/-- The predicate `record.id == 1`. -/
def selId1 : List Cell → Bool :=
  fun r => decide (getField ctxU r "id" = some (Val.int 1))

/-- The record constructed from `pAlice`. -/
def rAlice : List Cell := makeRecord userCols pAlice

/-- The record constructed from `pBob`. -/
def rBob : List Cell := makeRecord userCols pBob

/-- A registered `ConnectionManager` instance with a live connection,
two outstanding `start` references and an empty queue. -/
def inst0 : CMInstance := ⟨{ database := "/tmp/app.db" }, true, 2, 0⟩

/-- A registry holding `inst0` under its database path. -/
def reg0 : Registry := [("/tmp/app.db", inst0)]

/-- A second connector for the same path with different parameters. -/
def conn2 : Connector := { database := "/tmp/app.db", timeout := 99, autocommit := true }

/-! ## Helper lemmas -/

/-- When the worker task already exists, `ConnectionManager.start` only
increments the reference count. -/
theorem cmStart_running (s : CMState) (h : s.workerRunning = true) :
    cmStart s = { s with refcount := s.refcount + 1 } := by
  simp [cmStart, ceStart, h]

/-- Iterating `start` on a state whose worker is running only accumulates
reference count. -/
theorem applyN_cmStart_running (n : Nat) (s : CMState) (h : s.workerRunning = true) :
    applyN cmStart n s = { s with refcount := s.refcount + n } := by
  induction n generalizing s with
  | zero => simp [applyN]
  | succ m ih =>
      rw [applyN, cmStart_running s h, ih { s with refcount := s.refcount + 1 } h]
      simp
      omega

/-- `n + 1` calls of `ConnectionManager.start` from the initial state:
one worker spawned, one connection opened, reference count `n + 1`. -/
theorem applyN_cmStart_init (n : Nat) :
    applyN cmStart (n + 1) initCM = ⟨n + 1, true, true, 0, 1, 0⟩ := by
  have h0 : cmStart initCM = ⟨1, true, true, 0, 1, 0⟩ := rfl
  rw [applyN, h0, applyN_cmStart_running n _ rfl]
  simp
  omega

/-- `ConnectionManager.stop` with at least two outstanding references
only decrements. -/
theorem cmStop_ge_two (k : Nat) :
    cmStop ⟨k + 2, true, true, 0, 1, 0⟩ = ⟨k + 1, true, true, 0, 1, 0⟩ := by
  simp [cmStop, ceStop]

/-- Draining `n + 1` stops from reference count `n + 1`: the connection
is committed and closed exactly on the final stop. -/
theorem applyN_cmStop_drain (n : Nat) :
    applyN cmStop (n + 1) ⟨n + 1, true, true, 0, 1, 0⟩ = ⟨0, false, false, 0, 1, 1⟩ := by
  induction n with
  | zero => rfl
  | succ m ih => rw [applyN, cmStop_ge_two m]; exact ih

/-! ## Claims -/

/-- C1: For every `ConsistentExecutor` whose worker is running and every
sequence of tasks submitted via `__call__`, the tasks are executed one at
a time in submission order and their futures resolve in that same order.
The worker is a single coroutine that awaits each execution to completion
on a one-thread pool before dequeuing the next entry, so its behaviour is
the sequential trace `worker`; when no submitted future has been completed
out-of-band, that trace is exactly the submission order. -/
theorem C1_consistent_executor_fifo {α : Type} (queue : List (QueueEntry α))
    (h : ∀ e ∈ queue, e.done = false) :
    worker queue = queue.map (·.call) := by
  induction queue with
  | nil => rfl
  | cons e rest ih =>
      have he : e.done = false := h e (by simp)
      simp [worker, he, ih (fun x hx => h x (by simp [hx]))]

/-- Witness for C1 at a concrete three-task queue. -/
theorem C1_consistent_executor_fifo_witness :
    worker [⟨1, false⟩, ⟨2, false⟩, ⟨3, false⟩] = [1, 2, 3] :=
  C1_consistent_executor_fifo [⟨(1 : Nat), false⟩, ⟨2, false⟩, ⟨3, false⟩] (by decide)

/-- C2: `N` `start()` calls followed by `N` `stop()` calls on a
`ConnectionManager` open the native connection exactly once (on the
0-to-1 reference transition) and close it exactly once (on the 1-to-0
transition, after `queue.join()` has drained the queue — `pending = 0` in
the final state); and a `stop()` at reference count zero changes
nothing. -/
theorem C2_connection_refcount (n : Nat) (h : 1 ≤ n) :
    applyN cmStop n (applyN cmStart n initCM) = ⟨0, false, false, 0, 1, 1⟩ ∧
    ∀ s : CMState, s.refcount = 0 → cmStop s = s := by
  constructor
  · obtain ⟨m, rfl⟩ : ∃ m, n = m + 1 := ⟨n - 1, by omega⟩
    rw [applyN_cmStart_init m]
    exact applyN_cmStop_drain m
  · intro s hs
    simp [cmStop, ceStop, hs]

/-- Witness for C2 at `N = 3` and for the past-zero no-op at the initial
state. -/
theorem C2_connection_refcount_witness :
    applyN cmStop 3 (applyN cmStart 3 initCM) = ⟨0, false, false, 0, 1, 1⟩ ∧
    cmStop initCM = initCM :=
  ⟨(C2_connection_refcount 3 (by decide)).1,
   (C2_connection_refcount 3 (by decide)).2 initCM rfl⟩

/-- C3: for a record type with a non-empty set of nonrepeating columns,
`TableRecord.__eq__` holds iff at least one nonrepeating field of the two
records agrees (OR over the nonrepeating columns, not AND). -/
theorem C3_record_eq_or_semantics (ctx : RecordCtx) (r1 r2 : List Cell)
    (h : ctx.nonrepeating ≠ []) :
    recEq ctx r1 r2 = true ↔
      ∃ k ∈ ctx.nonrepeating, getField ctx r1 k = getField ctx r2 k := by
  simp [recEq, List.any_eq_true]

/-- Witness for C3: the Alice and Bob records differ in `name` but share
`id`, so they are equal. -/
theorem C3_record_eq_or_semantics_witness : recEq ctxU rAlice rBob = true :=
  (C3_record_eq_or_semantics ctxU rAlice rBob (by decide)).mpr
    ⟨"id", by decide, by decide⟩

/-- C4 (code bug): on a `MemoryTable` holding one record, `delete()` with
no predicate raises `TypeError` (the loop calls `set.discard` without the
record argument) instead of clearing the table, and `delete(predicate)`
deletes every record even when the predicate returns `False` for all of
them (the un-awaited coroutine `predicate(record)` is always truthy);
`SolidTable`'s bulk delete behaves as the claim states. -/
theorem C4_memory_delete_bug :
    memDeleteNoPred [[some (Val.int 1)]] =
      .error "TypeError: set.discard missing the element argument" ∧
    memDeletedPred [[some (Val.int 1)]] (fun _ => false) = ([], [[some (Val.int 1)]]) ∧
    solidDeletedNoPred [[some (Val.int 1)]] = ([], [[some (Val.int 1)]]) :=
  ⟨rfl, rfl, rfl⟩

/-- C5: on a table `(id INTEGER PRIMARY KEY, name TEXT NOT NULL)`,
inserting `(1, "Alice")`, then `(1, "Bob")` with `ignore_existing=False`
replaces the row, and then `(1, "Carol")` with `ignore_existing=True`
leaves it unchanged; selecting `id == 1` yields the `"Bob"` row — for
both the `MemoryTable` set semantics and the sqlite statements issued by
`SolidTable`. -/
theorem C5_insert_replace_ignore_scenario :
    memT1 = [[some (Val.int 1), some (Val.str "Alice")]] ∧
    memT2 = [[some (Val.int 1), some (Val.str "Bob")]] ∧
    memT3 = [[some (Val.int 1), some (Val.str "Bob")]] ∧
    memSelect memT3 selId1 = [[some (Val.int 1), some (Val.str "Bob")]] ∧
    solidT1 = [[some (Val.int 1), some (Val.str "Alice")]] ∧
    solidT2 = [[some (Val.int 1), some (Val.str "Bob")]] ∧
    solidT3 = [[some (Val.int 1), some (Val.str "Bob")]] ∧
    solidSelect userCols solidT3 selId1 = [[some (Val.int 1), some (Val.str "Bob")]] := by
  refine ⟨rfl, rfl, rfl, rfl, rfl, rfl, rfl, rfl⟩

/-- C6 (code bug): `CursorManager.fetch(start, stop, step)` does not
return the slice `rows[start:stop:step]`: rows are not consumed while the
counter is at most `start`, so `fetch(1)` on a three-row cursor returns
all three rows where the slice is the last two, and `fetch(0, None, 2)`
returns `[20]` where the slice is `[10, 30]`. -/
theorem C6_fetch_not_slice :
    fetch [Val.int 10, Val.int 20, Val.int 30] 1 none 1 =
      [Val.int 10, Val.int 20, Val.int 30] ∧
    pySlice [Val.int 10, Val.int 20, Val.int 30] 1 none 1 = [Val.int 20, Val.int 30] ∧
    fetch [Val.int 10, Val.int 20, Val.int 30] 0 none 2 = [Val.int 20] ∧
    pySlice [Val.int 10, Val.int 20, Val.int 30] 0 none 2 = [Val.int 10, Val.int 30] :=
  ⟨rfl, rfl, rfl, rfl⟩

/-- C7 (counterexample): constructing a record of a table whose only
column is `name TEXT NOT NULL` (no default, no generator) without
supplying a value raises nothing — the code silently builds the record
`[None]`, while the claimed behaviour (modelled from the spec) errors. -/
theorem C7_missing_value_counterexample :
    makeRecord [nameCol] [] = [none] ∧
    makeRecordSpec [nameCol] [] = .error "missing required value for non-nullable column" :=
  ⟨rfl, rfl⟩

/-- C7 (amended): a column value missing from the parameters resolves by
precedence generator, then static default, then null — and record
construction is total, never raising. -/
theorem C7_default_resolution (cols : List TableColumn) (params : List (String × Cell))
    (i : Nat) (c : TableColumn) (hc : cols.get? i = some c)
    (hmiss : lookupParam params c.name = none) :
    (makeRecord cols params).get? i =
      some (match c.generator with
            | some g => g ()
            | none => c.default) := by
  have hc' : cols[i]? = some c := by rw [← List.get?_eq_getElem?]; exact hc
  simp [makeRecord, List.get?_eq_getElem?, List.getElem?_map, hc', hmiss,
    TableColumn.get_default]

/-- Witness for C7: the generator column resolves to its generated value
`7`, and the non-nullable `name` column resolves to null. -/
theorem C7_default_resolution_witness :
    (makeRecord [genCol] []).get? 0 = some (some (Val.int 7)) ∧
    (makeRecord [nameCol] []).get? 0 = some none :=
  ⟨C7_default_resolution [genCol] [] 0 genCol rfl rfl,
   C7_default_resolution [nameCol] [] 0 nameCol rfl rfl⟩

/-- C8 (code bug): `SolidTable._execute_where` matches on the first
nonrepeating column when one is declared, and on the conjunction of all
columns when the record has no null field; but in the middle branch
(no nonrepeating columns, some null field) it concatenates the query
string with the `Future` returned by `ConsistentExecutor.__call__`,
raising `TypeError` instead of matching on the non-null columns. -/
theorem C8_where_derivation :
    execute_where userCols "DELETE FROM users" [some (Val.int 1), some (Val.str "Bob")] [] =
      .ok ("DELETE FROM users WHERE id = ?", [some (Val.int 1)]) ∧
    execute_where plainCols "DELETE FROM t" [some (Val.int 1), none] [] =
      .error "TypeError: can only concatenate str to str, not Future" ∧
    execute_where plainCols "DELETE FROM t" [some (Val.int 1), some (Val.int 2)] [] =
      .ok ("DELETE FROM t WHERE a = ? AND b = ?", [some (Val.int 1), some (Val.int 2)]) :=
  ⟨rfl, rfl, rfl⟩

/-- C9: the worker skips, without invoking the callable, every dequeued
entry whose future is already completed, and executes each remaining
entry exactly once in queue order: its trace is the in-order execution of
precisely the not-yet-completed entries. -/
theorem C9_skip_done_entries {α : Type} (queue : List (QueueEntry α)) :
    worker queue = (queue.filter (fun e => !e.done)).map (·.call) := by
  induction queue with
  | nil => rfl
  | cons e rest ih => cases hd : e.done <;> simp [worker, hd, ih]

/-- C10: constructing `ConnectionManager(connector2)` for a database path
that already has a registered instance returns the stored instance with
the registry, stored connector, connection, queue and reference count all
untouched — the new connector's parameters are discarded and `__init__`
does no work. -/
theorem C10_singleton_unchanged (reg : Registry) (c2 : Connector) (inst : CMInstance)
    (h : regFind reg c2.database = some inst) :
    cmNew reg c2 = (reg, inst) := by
  simp [cmNew, h]

/-- Witness for C10: a second connector for `/tmp/app.db` with a
different timeout and autocommit returns `inst0` and leaves the registry
as it was. -/
theorem C10_singleton_unchanged_witness : cmNew reg0 conn2 = (reg0, inst0) :=
  C10_singleton_unchanged reg0 conn2 inst0 (by decide)

end Sl3aio
